import Mathlib

/-!
Shallow embedding of the three `main.py` scripts of the Python-CrewAI
repository.  External services (the two Wikipedia clients, Google search,
the OpenAI chat API, the filesystem and the JSON parser) are modelled as
oracle parameters; everything the scripts themselves compute is translated
directly from the source.
-/

namespace CrewAIRepo

/-- Python substring containment `pat in s`, by characters. -/
def containsSubstr (s pat : String) : Bool := decide (pat.data <:+: s.data)

/-- Python slice `s[:n]`: the first `n` characters of `s`. -/
def pySlice (s : String) (n : Nat) : String := String.mk (s.data.take n)

/-- Python `s.lower()`: lowercase character by character. -/
def pyLower (s : String) : String := String.mk (s.data.map Char.toLower)

/-- Python `s.strip()`: drop whitespace from both ends. -/
def pyStrip (s : String) : String :=
  String.mk (((s.data.dropWhile Char.isWhitespace).reverse.dropWhile
    Char.isWhitespace).reverse)

/-! ## Variants 1 and 2: the hand-rolled agent pipeline

Variant 1 is `CrewAI Flow + Wikipedia + Nvidia API + LLM + Google/main.py`
(with a Google-search fallback); variant 2 is
`CrewAI Flow + Wikipedia + Nvidia API + LLM +Google/main.py` (no Google
fallback).  The two files are otherwise identical. -/

/-- Oracle for the external calls made by `DeveloperAgent.write_code`:
`simpleSummary` is `wikipedia.summary(task, sentences=2)` (`none` = the call
throws), `pageExists`/`pageSummary` model `wikipediaapi.Wikipedia.page`, and
`googleResults` models `list(search(task, num=1, stop=1, pause=2))`. -/
structure WikiEnv where
  simpleSummary : String → Option String
  pageExists : String → Bool
  pageSummary : String → String
  googleResults : String → List String

/-- The classifier condition of `DeveloperAgent.write_code` (line 31 of both
variants): `"what" in task.lower() or "who" in task.lower() or
"net worth" in task.lower()`. -/
def isQuestion (task : String) : Bool :=
  containsSubstr (pyLower task) "what" || containsSubstr (pyLower task) "who" ||
    containsSubstr (pyLower task) "net worth"

/-- The question branch of `write_code` in variant 1 (lines 33-51): try the
simple summary, fall back to the page API, then to Google search, then to a
fixed failure string. -/
def answerQuestionG (env : WikiEnv) (task : String) : String :=
  match env.simpleSummary task with
  | some answer => answer
  | none =>
    if env.pageExists task then pySlice (env.pageSummary task) 500
    else
      match env.googleResults task with
      | r :: _ => "Google Search result: " ++ r
      | [] => "Developer: No relevant information found on Wikipedia or Google."

/-- The question branch of `write_code` in variant 2 (lines 33-45): as in
variant 1 but with no Google fallback. -/
def answerQuestionW (env : WikiEnv) (task : String) : String :=
  match env.simpleSummary task with
  | some answer => answer
  | none =>
    if env.pageExists task then pySlice (env.pageSummary task) 500
    else "Developer: No Wikipedia page found for this query."

/-- `DeveloperAgent.write_code` of variant 1. -/
def write_code (env : WikiEnv) (task : String) : String :=
  if isQuestion task then answerQuestionG env task
  else "Code for " ++ task ++ " completed."

/-- `DeveloperAgent.write_code` of variant 2. -/
def write_code2 (env : WikiEnv) (task : String) : String :=
  if isQuestion task then answerQuestionW env task
  else "Code for " ++ task ++ " completed."

/-- `QAAgent.test_code`: ignores its argument. -/
def test_code (_code : String) : String := "Code or answer passed QA."

/-- `DevOpsAgent.deploy_code`: ignores its argument. -/
def deploy_code (_code : String) : String := "Code or answer deployed successfully."

/-- `ClientCommunicationAgent.send_update`. -/
def send_update (_message : String) : String := "Client notified."

/-- `ClientCommunicationAgent.get_feedback`. -/
def get_feedback : String := "Client feedback: Everything looks good!"

/-- `ProjectManagerAgent.initialize_project`: prints a line and returns the
task list unchanged. -/
def initialize_project (tasks : List String) : List String := tasks

/-- `ProjectManagerAgent.review_feedback`. -/
def review_feedback (_feedback : String) : String := "Adjust tasks if needed."

/-- Observable events of one run of `crewai_flow`: lines printed and the
agent calls performed. -/
inductive Event where
  | printed (s : String)
  | initializedProject (tasks : List String)
  | wroteCode (task : String)
  | testedCode (code : String)
  | deployed (code : String)
  | sentUpdate (msg : String)
  | gotFeedback (fb : String)
  | reviewedFeedback (fb : String)
  deriving DecidableEq, Repr

/-- The task-collection loop of `crewai_flow` (lines 90-94 of variant 1):
read a line, stop on `line.lower() == "done"`, otherwise append.  The input
stream is modelled as a list of lines; `none` models the `EOFError` raised
by `input()` when the stream ends before the sentinel. -/
def collectTasks : List String → Option (List String)
  | [] => none
  | line :: rest =>
    if (pyLower line) = "done" then some []
    else (collectTasks rest).map (line :: ·)

/-- Steps 3-6 of `crewai_flow` for one task (lines 104-119 of variant 1):
develop, QA, and deploy-and-notify when the QA result contains `"passed"`. -/
def processTaskEvents (env : WikiEnv) (task : String) : List Event :=
  let result := write_code env task
  let qa_result := test_code result
  [Event.printed ("\nProcessing task: " ++ task), Event.wroteCode task,
    Event.testedCode result] ++
  (if containsSubstr qa_result "passed" then
    [Event.deployed result, Event.printed (deploy_code result),
      Event.sentUpdate ("Task completed: " ++ task)]
  else [Event.printed "QA failed. Code or answer not deployed."])

/-- `crewai_flow` of variant 1 (variant 2 is identical except for
`write_code`), as the list of events of one run on the given input lines.
`none` models the uncaught `EOFError` when the sentinel is never entered. -/
def crewai_flow (env : WikiEnv) (inputs : List String) : Option (List Event) :=
  (collectTasks inputs).map fun tasks =>
    if tasks = [] then [Event.printed "No tasks provided. Exiting."]
    else
      Event.initializedProject tasks ::
        ((initialize_project tasks).flatMap (processTaskEvents env) ++
          [Event.gotFeedback get_feedback,
            Event.reviewedFeedback (review_feedback get_feedback)])

/-- The task of a `wroteCode` event, if any. -/
def taskOfEvent : Event → Option String
  | Event.wroteCode t => some t
  | _ => none

/-- The tasks for which a `wroteCode` event occurs in a run, in order. -/
def wroteCodeTasks (evs : List Event) : List String := evs.filterMap taskOfEvent

/-! ## Variant 3: `Ultimate CrewAI Flow/main.py` -/

/-- The filesystem state seen by `load_config`: whether `config.json`
exists (`os.path.exists`) and its content when read. -/
structure ConfigFile where
  present : Bool
  content : String

/-- The keys `load_config` requires (line 39). -/
def requiredKeys : List String := ["OPENAI_API_KEY", "GOOGLE_API_KEY", "GOOGLE_CSE_ID"]

/-- An exception escaping the `try` block of `load_config`:
`configErr` is a `ConfigError` raised by the body itself, `jsonErr` a
`json.JSONDecodeError` from `json.loads`. -/
inductive TryErr where
  | configErr (msg : String)
  | jsonErr (msg : String)
  deriving DecidableEq, Repr

/-- The `try` body of `load_config` (lines 27-44).  The JSON parser is an
oracle `parse` returning the top-level keys of the parsed object, or the
decode-error message. -/
def load_config_try (fs : ConfigFile) (parse : String → Except String (List String)) :
    Except TryErr (List String) :=
  if !fs.present then
    Except.error (TryErr.configErr
      "Configuration file 'config.json' not found. Please create it.")
  else
    let content := pyStrip fs.content
    if content = "" then
      Except.error (TryErr.configErr
        "Configuration file 'config.json' is empty. Please add the required keys.")
    else
      match parse content with
      | Except.error e => Except.error (TryErr.jsonErr e)
      | Except.ok config =>
        match requiredKeys.find? (fun k => !config.contains k) with
        | some k =>
          Except.error (TryErr.configErr
            ("Missing required key '" ++ k ++ "' in configuration file."))
        | none => Except.ok config

/-- `load_config` (lines 25-48): the `except` clauses wrap a
`json.JSONDecodeError` as `Invalid JSON ...` and — because `ConfigError`
is itself an `Exception` — re-wrap every `ConfigError` raised in the body
as `Failed to load configuration: ...`. -/
def load_config (fs : ConfigFile) (parse : String → Except String (List String)) :
    Except String (List String) :=
  match load_config_try fs parse with
  | Except.ok c => Except.ok c
  | Except.error (TryErr.jsonErr e) =>
    Except.error ("Invalid JSON in configuration file: " ++ e)
  | Except.error (TryErr.configErr m) =>
    Except.error ("Failed to load configuration: " ++ m)

/-- Outcome of the `__main__` entry point (lines 211-234): a logged
`ConfigError` (the loop never starts), a logged `APIError` from
`initialize_apis`, or a running program. -/
inductive Startup where
  | configFailed (logged : String)
  | apiFailed (logged : String)
  | running (config : List String)
  deriving DecidableEq, Repr

/-- The `__main__` entry point up to the start of the main loop:
`load_config` first, and only on its success `initialize_apis` (modelled
by the oracle `initApis`). -/
def entryPoint (fs : ConfigFile) (parse : String → Except String (List String))
    (initApis : List String → Except String Unit) : Startup :=
  match load_config fs parse with
  | Except.error m => Startup.configFailed m
  | Except.ok config =>
    match initApis config with
    | Except.error m => Startup.apiFailed m
    | Except.ok _ => Startup.running config

/-- `search_google` (lines 75-83): the API call is an oracle; any
exception is caught and turned into the empty result list. -/
def search_google (call : Except String (List String)) : List String :=
  match call with
  | Except.ok items => items
  | Except.error _ => []

/-- What `wikipedia.summary(query, sentences=2)` does on a query, as seen
by `search_wikipedia`: a summary, a `DisambiguationError` (carrying the
result of the retry `wikipedia.summary(e.options[0], sentences=2)`, whose
own exception would escape the handler), a `PageError`, or any other
exception. -/
inductive WikiCall where
  | ok (summary : String)
  | disambiguation (retry : Except String String)
  | pageError
  | otherError (e : String)

/-- `search_wikipedia` (lines 85-98).  `Except.error` in the result models
an exception propagating out of the function (only possible from the retry
inside the `DisambiguationError` handler). -/
def search_wikipedia (call : WikiCall) : Except String String :=
  match call with
  | WikiCall.ok s => Except.ok s
  | WikiCall.disambiguation retry => retry
  | WikiCall.pageError => Except.ok "No relevant Wikipedia page found."
  | WikiCall.otherError _ => Except.ok "Error fetching Wikipedia data."

/-- `ask_chatgpt` (lines 100-114): any exception from the chat-completion
call (an oracle) is caught and replaced by a fixed fallback string. -/
def ask_chatgpt (call : Except String String) : String :=
  match call with
  | Except.ok r => r
  | Except.error _ => "Error generating response from ChatGPT."

/-- The main loop of variant 3 (lines 180-208), as the list of lines it
prints or logs.  `step` models `crew.kickoff` on the stripped question and
may throw (`Except.error`); the loop's `except Exception` turns that into
a logged line and continues. -/
def mainLoop (step : String → Except String String) : List String → List String
  | [] => []
  | line :: rest =>
    let question := pyStrip line
    if (pyLower question) = "exit" then ["Exiting the program."]
    else if (pyLower question) = "help" then
      ["Help:", "1. Type your question to get an answer.",
        "2. Type 'exit' to quit the program."] ++ mainLoop step rest
    else if question = "" then
      "Please enter a valid question." :: mainLoop step rest
    else
      match step question with
      | Except.ok answer => ("Answer: " ++ answer) :: mainLoop step rest
      | Except.error e => ("An error occurred: " ++ e) :: mainLoop step rest

/-- The questions the main loop of variant 3 actually hands to
`crew.kickoff`, in order. -/
def mainLoopProcessed : List String → List String
  | [] => []
  | line :: rest =>
    let question := pyStrip line
    if (pyLower question) = "exit" then []
    else if (pyLower question) = "help" then mainLoopProcessed rest
    else if question = "" then mainLoopProcessed rest
    else question :: mainLoopProcessed rest

/-- The spec's classifier condition, in its own words: the lowercased task
contains the substring `"what"`, `"who"`, or `"net worth"`. -/
def questionCond (task : String) : Prop :=
  (∃ p q, (pyLower task).data = p ++ "what".data ++ q) ∨
  (∃ p q, (pyLower task).data = p ++ "who".data ++ q) ∨
  (∃ p q, (pyLower task).data = p ++ "net worth".data ++ q)

/-- A sample environment in which every external call fails. -/
def trivEnv : WikiEnv :=
  ⟨fun _ => none, fun _ => false, fun _ => "", fun _ => []⟩

/-! ## General lemmas -/

theorem containsSubstr_iff (s pat : String) :
    containsSubstr s pat = true ↔ ∃ p q, s.data = p ++ pat.data ++ q := by
  unfold containsSubstr
  rw [decide_eq_true_iff]
  exact ⟨fun ⟨p, q, h⟩ => ⟨p, q, h.symm⟩, fun ⟨p, q, h⟩ => ⟨p, q, h.symm⟩⟩

theorem isQuestion_iff (task : String) : isQuestion task = true ↔ questionCond task := by
  unfold isQuestion questionCond
  simp only [Bool.or_eq_true, containsSubstr_iff]
  rw [or_assoc]

theorem string_ne_of_head (s t : String)
    (h : s.data.head? = t.data.head? → False) : s ≠ t :=
  fun he => h (congrArg (fun x => x.data.head?) he)

theorem str_append_right_ne (a b c : String) (h : b ≠ c) : a ++ b ≠ a ++ c := by
  intro he
  apply h
  apply String.ext
  have h2 := congrArg String.data he
  rw [String.data_append, String.data_append] at h2
  exact List.append_cancel_left h2

/-! ## C1 and C2 -/

/-- C1: `DeveloperAgent.write_code` (both hand-rolled variants) takes the
"question" branch exactly when the lowercased task contains `"what"`,
`"who"`, or `"net worth"`, and the "task" branch otherwise. -/
theorem write_code_branch_selection (env env2 : WikiEnv) (task : String) :
    (questionCond task →
      write_code env task = answerQuestionG env task ∧
      write_code2 env2 task = answerQuestionW env2 task) ∧
    (¬ questionCond task →
      write_code env task = "Code for " ++ task ++ " completed." ∧
      write_code2 env2 task = "Code for " ++ task ++ " completed.") := by
  constructor
  · intro h
    have hb : isQuestion task = true := (isQuestion_iff task).mpr h
    rw [write_code, write_code2, hb]
    exact ⟨rfl, rfl⟩
  · intro h
    have hb : isQuestion task = false := by
      cases hq : isQuestion task
      · rfl
      · exact absurd ((isQuestion_iff task).mp hq) h
    rw [write_code, write_code2, hb]
    exact ⟨rfl, rfl⟩

theorem write_code_branch_selection_witness :
    write_code trivEnv "What is AI" = answerQuestionG trivEnv "What is AI" ∧
    write_code2 trivEnv "What is AI" = answerQuestionW trivEnv "What is AI" :=
  (write_code_branch_selection trivEnv trivEnv "What is AI").1
    (Or.inl ⟨[], " is ai".data, by decide⟩)

/-- C2: on the "task" branch, `write_code` returns exactly
`"Code for " ++ task ++ " completed."`; in particular for
`"Write a function to sort a list"` it returns
`"Code for Write a function to sort a list completed."`. -/
theorem write_code_task_template (env env2 : WikiEnv) :
    (∀ task, isQuestion task = false →
      write_code env task = "Code for " ++ task ++ " completed." ∧
      write_code2 env2 task = "Code for " ++ task ++ " completed.") ∧
    write_code env "Write a function to sort a list" =
      "Code for Write a function to sort a list completed." := by
  refine ⟨fun task h => ?_, ?_⟩
  · rw [write_code, write_code2, h]
    exact ⟨rfl, rfl⟩
  · rfl

theorem write_code_task_template_witness :
    write_code trivEnv "Sort the list" = "Code for Sort the list completed." ∧
    write_code2 trivEnv "Sort the list" = "Code for Sort the list completed." :=
  (write_code_task_template trivEnv trivEnv).1 "Sort the list" (by decide)

/-! ## C3, C5, C10: the pipeline -/

/-- A string starting with character `c` differs from one that does not. -/
theorem str_head_append_ne (c : Char) (p q t : String) (hp : p.data.head? = some c)
    (ht : t.data.head? ≠ some c) : p ++ q ≠ t := by
  apply string_ne_of_head
  intro h
  rw [String.data_append, List.head?_append, hp] at h
  exact ht h.symm

theorem qa_passed_always (code : String) :
    containsSubstr (test_code code) "passed" = true := by
  show containsSubstr "Code or answer passed QA." "passed" = true
  decide

theorem qa_failed_not_in_processTask (env : WikiEnv) (task : String) :
    Event.printed "QA failed. Code or answer not deployed." ∉ processTaskEvents env task := by
  have hne : ("\nProcessing task: " ++ task : String) ≠
      "QA failed. Code or answer not deployed." :=
    str_head_append_ne '\n' _ task _ (by decide) (by decide)
  simp [processTaskEvents, qa_passed_always, hne, hne.symm, deploy_code]

theorem deployed_mem_processTask (env : WikiEnv) (task : String) :
    Event.deployed (write_code env task) ∈ processTaskEvents env task ∧
    Event.sentUpdate ("Task completed: " ++ task) ∈ processTaskEvents env task := by
  simp [processTaskEvents, qa_passed_always]

/-- C3: `QAAgent.test_code` always reports a pass, so in `crewai_flow` every
processed task is deployed and the client is notified with
`"Task completed: " ++ task`, and the "QA failed" line is never printed. -/
theorem qa_always_passes (env : WikiEnv) (inputs : List String) (evs : List Event)
    (h : crewai_flow env inputs = some evs) :
    (∀ code, containsSubstr (test_code code) "passed" = true) ∧
    Event.printed "QA failed. Code or answer not deployed." ∉ evs ∧
    ∀ tasks, collectTasks inputs = some tasks →
      ∀ task ∈ tasks,
        Event.deployed (write_code env task) ∈ evs ∧
        Event.sentUpdate ("Task completed: " ++ task) ∈ evs := by
  cases hct : collectTasks inputs with
  | none => rw [crewai_flow, hct] at h; exact absurd h (by simp)
  | some tasks =>
    rw [crewai_flow, hct] at h
    simp only [Option.map_some', Option.some.injEq] at h
    refine ⟨fun code => qa_passed_always code, ?_, ?_⟩
    · subst h
      by_cases he : tasks = []
      · subst he
        intro hmem
        rw [if_pos rfl] at hmem
        have h4 := List.mem_singleton.mp hmem
        injection h4 with hs
        exact absurd hs (by decide)
      · simp only [if_neg he]
        intro hmem
        rcases List.mem_cons.mp hmem with h1 | hmem2
        · exact Event.noConfusion h1
        rcases List.mem_append.mp hmem2 with h2 | h3
        · obtain ⟨t, _, h2'⟩ := List.mem_flatMap.mp h2
          exact qa_failed_not_in_processTask env t h2'
        · simp only [List.mem_cons, List.not_mem_nil, or_false] at h3
          rcases h3 with h4 | h4 <;> exact Event.noConfusion h4
    · intro tasks' ht' task htask
      injection ht' with ht'
      subst ht'
      have he : tasks ≠ [] := List.ne_nil_of_mem htask
      subst h
      simp only [if_neg he]
      constructor
      · exact List.mem_cons_of_mem _ (List.mem_append_left _
          (List.mem_flatMap.mpr ⟨task, htask, (deployed_mem_processTask env task).1⟩))
      · exact List.mem_cons_of_mem _ (List.mem_append_left _
          (List.mem_flatMap.mpr ⟨task, htask, (deployed_mem_processTask env task).2⟩))

/-- The events of the run of `crewai_flow` on input `["t1", "done"]` in an
environment where every external call fails. -/
def sampleRun : List Event :=
  [Event.initializedProject ["t1"], Event.printed "\nProcessing task: t1",
    Event.wroteCode "t1", Event.testedCode "Code for t1 completed.",
    Event.deployed "Code for t1 completed.",
    Event.printed "Code or answer deployed successfully.",
    Event.sentUpdate "Task completed: t1",
    Event.gotFeedback "Client feedback: Everything looks good!",
    Event.reviewedFeedback "Adjust tasks if needed."]

theorem qa_always_passes_witness :
    Event.printed "QA failed. Code or answer not deployed." ∉ sampleRun ∧
    Event.sentUpdate "Task completed: t1" ∈ sampleRun := by
  have h := qa_always_passes trivEnv ["t1", "done"] sampleRun (by decide)
  exact ⟨h.2.1, (h.2.2 ["t1"] (by decide) "t1" (by decide)).2⟩

/-- C5: if the first input line is the sentinel, `crewai_flow` only prints
`"No tasks provided. Exiting."` and returns: no project initialization, no
per-task step, no feedback fetch or review. -/
theorem no_tasks_early_exit (env : WikiEnv) (line : String) (rest : List String)
    (h : pyLower line = "done") :
    crewai_flow env (line :: rest) = some [Event.printed "No tasks provided. Exiting."] := by
  simp [crewai_flow, collectTasks, h]

theorem no_tasks_early_exit_witness :
    crewai_flow trivEnv ["done"] = some [Event.printed "No tasks provided. Exiting."] :=
  no_tasks_early_exit trivEnv "done" [] (by decide)

theorem wroteCodeTasks_flatMap (env : WikiEnv) (ts : List String) :
    wroteCodeTasks (ts.flatMap (processTaskEvents env)) = ts := by
  induction ts with
  | nil => rfl
  | cons t ts ih =>
    rw [List.flatMap_cons, wroteCodeTasks, List.filterMap_append]
    have h1 : (processTaskEvents env t).filterMap taskOfEvent = [t] := by
      simp [processTaskEvents, qa_passed_always, taskOfEvent]
    rw [h1, ← wroteCodeTasks, ih]
    rfl

/-- C10: `ProjectManagerAgent.initialize_project` is the identity on the
task list, and `crewai_flow` runs `write_code` exactly once per entered
task, in entry order. -/
theorem initialize_project_identity (env : WikiEnv) (inputs tasks : List String)
    (h : collectTasks inputs = some tasks) :
    initialize_project tasks = tasks ∧
    ∃ evs, crewai_flow env inputs = some evs ∧ wroteCodeTasks evs = tasks := by
  refine ⟨rfl, ?_⟩
  rw [crewai_flow, h, Option.map_some']
  by_cases he : tasks = []
  · subst he
    exact ⟨_, rfl, rfl⟩
  · refine ⟨_, rfl, ?_⟩
    simp only [if_neg he]
    rw [wroteCodeTasks, List.filterMap_cons]
    show (((initialize_project tasks).flatMap (processTaskEvents env)) ++ _).filterMap
      taskOfEvent = tasks
    rw [List.filterMap_append, ← wroteCodeTasks, initialize_project, wroteCodeTasks_flatMap]
    simp [taskOfEvent]

theorem initialize_project_identity_witness :
    initialize_project ["a", "b"] = ["a", "b"] ∧
    ∃ evs, crewai_flow trivEnv ["a", "b", "done"] = some evs ∧
      wroteCodeTasks evs = ["a", "b"] :=
  initialize_project_identity trivEnv ["a", "b", "done"] ["a", "b"] (by decide)

/-! ## C6 and C9: the question-branch fallback chain -/

/-- C6: on the "question" branch the result is the first string produced
along the chain — simple summary, then page summary (truncated), then (in
the Google variant) the first Google result with its prefix, and otherwise
the variant's fixed failure string. -/
theorem question_fallback_chain (env env2 : WikiEnv) (task : String)
    (hq : isQuestion task = true) :
    (∀ a, env.simpleSummary task = some a → write_code env task = a) ∧
    (env.simpleSummary task = none → env.pageExists task = true →
      write_code env task = pySlice (env.pageSummary task) 500) ∧
    (env.simpleSummary task = none → env.pageExists task = false →
      (∀ r rs, env.googleResults task = r :: rs →
        write_code env task = "Google Search result: " ++ r) ∧
      (env.googleResults task = [] →
        write_code env task =
          "Developer: No relevant information found on Wikipedia or Google.")) ∧
    (∀ a, env2.simpleSummary task = some a → write_code2 env2 task = a) ∧
    (env2.simpleSummary task = none → env2.pageExists task = true →
      write_code2 env2 task = pySlice (env2.pageSummary task) 500) ∧
    (env2.simpleSummary task = none → env2.pageExists task = false →
      write_code2 env2 task = "Developer: No Wikipedia page found for this query.") := by
  have hw : write_code env task = answerQuestionG env task := by
    simp [write_code, hq]
  have hw2 : write_code2 env2 task = answerQuestionW env2 task := by
    simp [write_code2, hq]
  rw [hw, hw2]
  refine ⟨?_, ?_, ?_, ?_, ?_, ?_⟩
  · intro a ha
    simp [answerQuestionG, ha]
  · intro h1 h2
    simp [answerQuestionG, h1, h2]
  · intro h1 h2
    constructor
    · intro r rs h3
      simp [answerQuestionG, h1, h2, h3]
    · intro h3
      simp [answerQuestionG, h1, h2, h3]
  · intro a ha
    simp [answerQuestionW, ha]
  · intro h1 h2
    simp [answerQuestionW, h1, h2]
  · intro h1 h2
    simp [answerQuestionW, h1, h2]

/-- An environment in which the simple summary succeeds. -/
def qEnv : WikiEnv :=
  ⟨fun _ => some "Paris.", fun _ => true, fun _ => "", fun _ => []⟩

theorem question_fallback_chain_witness :
    write_code qEnv "What is the capital of France" = "Paris." :=
  (question_fallback_chain qEnv qEnv "What is the capital of France"
    (by decide)).1 "Paris." rfl

/-- An environment in which the simple summary throws and the page exists. -/
def fEnv : WikiEnv :=
  ⟨fun _ => none, fun _ => true, fun _ => "The Eiffel Tower is in Paris.", fun _ => []⟩

/-- C9: when the simple summary throws and the page exists, `write_code`
returns the page summary truncated to 500 characters, so the result has
length at most 500. -/
theorem fallback_truncated_500 (env env2 : WikiEnv) (task : String)
    (hq : isQuestion task = true)
    (h1 : env.simpleSummary task = none) (h2 : env.pageExists task = true)
    (h3 : env2.simpleSummary task = none) (h4 : env2.pageExists task = true) :
    write_code env task = pySlice (env.pageSummary task) 500 ∧
    (write_code env task).length ≤ 500 ∧
    write_code2 env2 task = pySlice (env2.pageSummary task) 500 ∧
    (write_code2 env2 task).length ≤ 500 := by
  have hl : ∀ s : String, (pySlice s 500).length ≤ 500 := by
    intro s
    rw [pySlice, String.length_mk, List.length_take]
    exact min_le_left _ _
  have e1 : write_code env task = pySlice (env.pageSummary task) 500 := by
    simp [write_code, hq, answerQuestionG, h1, h2]
  have e2 : write_code2 env2 task = pySlice (env2.pageSummary task) 500 := by
    simp [write_code2, hq, answerQuestionW, h3, h4]
  exact ⟨e1, e1 ▸ hl _, e2, e2 ▸ hl _⟩

theorem fallback_truncated_500_witness :
    write_code fEnv "What is the Eiffel Tower" =
      pySlice (fEnv.pageSummary "What is the Eiffel Tower") 500 ∧
    (write_code fEnv "What is the Eiffel Tower").length ≤ 500 := by
  have h := fallback_truncated_500 fEnv fEnv "What is the Eiffel Tower"
    (by decide) rfl rfl rfl rfl
  exact ⟨h.1, h.2.1⟩

/-! ## C4: configuration loading -/

theorem str_ne_of_getElem (s t : String) (i : Nat)
    (h : s.data[i]? = t.data[i]? → False) : s ≠ t :=
  fun he => h (congrArg (fun x => x.data[i]?) he)

theorem append_ne_append_of_head (p q p' q' : String) (c c' : Char)
    (hp : p.data.head? = some c) (hp' : p'.data.head? = some c') (hcc : c ≠ c') :
    p ++ q ≠ p' ++ q' := by
  apply string_ne_of_head
  intro h
  rw [String.data_append, String.data_append, List.head?_append, List.head?_append,
    hp, hp'] at h
  exact hcc (Option.some.inj h)

/-- C4: each of the four failure cases of `load_config` produces its own
`ConfigError` message, the error decides the startup outcome before
`initialize_apis` is consulted, the parsed configuration is returned only
when no case applies, and the four messages are pairwise distinct. -/
theorem load_config_distinct_errors (fs : ConfigFile)
    (parse : String → Except String (List String)) :
    (fs.present = false →
      load_config fs parse = Except.error
        "Failed to load configuration: Configuration file 'config.json' not found. Please create it.") ∧
    (fs.present = true → pyStrip fs.content = "" →
      load_config fs parse = Except.error
        "Failed to load configuration: Configuration file 'config.json' is empty. Please add the required keys.") ∧
    (fs.present = true → pyStrip fs.content ≠ "" → ∀ e,
      parse (pyStrip fs.content) = Except.error e →
      load_config fs parse = Except.error ("Invalid JSON in configuration file: " ++ e)) ∧
    (fs.present = true → pyStrip fs.content ≠ "" → ∀ ks,
      parse (pyStrip fs.content) = Except.ok ks → ∀ k,
      requiredKeys.find? (fun key => !ks.contains key) = some k →
      load_config fs parse = Except.error
        ("Failed to load configuration: Missing required key '" ++ k ++ "' in configuration file.")) ∧
    (fs.present = true → pyStrip fs.content ≠ "" → ∀ ks,
      parse (pyStrip fs.content) = Except.ok ks →
      (∀ key ∈ requiredKeys, ks.contains key = true) →
      load_config fs parse = Except.ok ks) ∧
    (∀ m, load_config fs parse = Except.error m →
      ∀ initApis initApis2,
        entryPoint fs parse initApis = Startup.configFailed m ∧
        entryPoint fs parse initApis = entryPoint fs parse initApis2) ∧
    (∀ e k,
      ("Failed to load configuration: Configuration file 'config.json' not found. Please create it." : String) ≠
        "Failed to load configuration: Configuration file 'config.json' is empty. Please add the required keys." ∧
      ("Failed to load configuration: Configuration file 'config.json' not found. Please create it." : String) ≠
        "Invalid JSON in configuration file: " ++ e ∧
      ("Failed to load configuration: Configuration file 'config.json' not found. Please create it." : String) ≠
        "Failed to load configuration: Missing required key '" ++ k ++ "' in configuration file." ∧
      ("Failed to load configuration: Configuration file 'config.json' is empty. Please add the required keys." : String) ≠
        "Invalid JSON in configuration file: " ++ e ∧
      ("Failed to load configuration: Configuration file 'config.json' is empty. Please add the required keys." : String) ≠
        "Failed to load configuration: Missing required key '" ++ k ++ "' in configuration file." ∧
      ("Invalid JSON in configuration file: " ++ e : String) ≠
        "Failed to load configuration: Missing required key '" ++ k ++ "' in configuration file.") := by
  refine ⟨?_, ?_, ?_, ?_, ?_, ?_, ?_⟩
  · intro h
    simp [load_config, load_config_try, h]
  · intro h1 h2
    simp [load_config, load_config_try, h1, h2]
  · intro h1 h2 e he
    simp [load_config, load_config_try, h1, h2, he]
  · intro h1 h2 ks hks k hk
    simp only [load_config, load_config_try, h1, Bool.not_true, Bool.false_eq_true,
      if_false, if_neg h2, hks, hk]
    rw [String.append_assoc, ← String.append_assoc
      "Failed to load configuration: " "Missing required key '" _]
    rfl
  · intro h1 h2 ks hks hall
    have hfind : requiredKeys.find? (fun key => !ks.contains key) = none := by
      rw [List.find?_eq_none]
      intro x hx
      rw [hall x hx]
      simp
    simp only [load_config, load_config_try, h1, Bool.not_true, Bool.false_eq_true,
      if_false, if_neg h2, hks, hfind]
  · intro m hm initApis initApis2
    constructor <;> simp [entryPoint, hm]
  · intro e k
    refine ⟨by decide, ?_, ?_, ?_, ?_, ?_⟩
    · intro he
      have hd := congrArg (fun x => x.data[0]?) he
      simp only [String.data_append] at hd
      rw [List.getElem?_append_left (by decide)] at hd
      exact absurd hd (by decide)
    · rw [String.append_assoc]
      apply str_ne_of_getElem _ _ 30
      intro h
      rw [String.data_append, List.getElem?_append_left (by decide)] at h
      exact absurd h (by decide)
    · intro he
      have hd := congrArg (fun x => x.data[0]?) he
      simp only [String.data_append] at hd
      rw [List.getElem?_append_left (by decide)] at hd
      exact absurd hd (by decide)
    · rw [String.append_assoc]
      apply str_ne_of_getElem _ _ 30
      intro h
      rw [String.data_append, List.getElem?_append_left (by decide)] at h
      exact absurd h (by decide)
    · rw [String.append_assoc]
      exact append_ne_append_of_head _ _ _ _ 'I' 'F' (by decide) (by decide) (by decide)

theorem load_config_distinct_errors_witness :
    load_config ⟨false, ""⟩ (fun _ => Except.ok []) = Except.error
      "Failed to load configuration: Configuration file 'config.json' not found. Please create it." :=
  (load_config_distinct_errors ⟨false, ""⟩ (fun _ => Except.ok [])).1 rfl

/-! ## C7: sentinel-terminated input loops -/

theorem collectTasks_sentinel (pre : List String) (s : String) (post : List String)
    (hs : pyLower s = "done") (hpre : ∀ l ∈ pre, pyLower l ≠ "done") :
    collectTasks (pre ++ s :: post) = some pre := by
  induction pre with
  | nil => simp [collectTasks, hs]
  | cons l pre ih =>
    have hl := hpre l (List.mem_cons_self l pre)
    simp only [List.cons_append, collectTasks, if_neg hl, List.append_eq]
    rw [ih (fun x hx => hpre x (List.mem_cons_of_mem _ hx))]
    rfl

theorem collectTasks_no_sentinel (inputs : List String)
    (h : ∀ l ∈ inputs, pyLower l ≠ "done") : collectTasks inputs = none := by
  induction inputs with
  | nil => rfl
  | cons l rest ih =>
    simp only [collectTasks, if_neg (h l (List.mem_cons_self l rest))]
    rw [ih (fun x hx => h x (List.mem_cons_of_mem _ hx))]
    rfl

theorem mainLoop_sentinel (step : String → Except String String) (pre : List String)
    (s : String) (post : List String) (hs : pyLower (pyStrip s) = "exit")
    (hpre : ∀ l ∈ pre, pyLower (pyStrip l) ≠ "exit") :
    mainLoop step (pre ++ s :: post) = mainLoop step pre ++ ["Exiting the program."] := by
  induction pre with
  | nil => simp [mainLoop, hs]
  | cons l pre ih =>
    have hl := hpre l (List.mem_cons_self l pre)
    have ih' := ih (fun x hx => hpre x (List.mem_cons_of_mem _ hx))
    simp only [List.cons_append, mainLoop, if_neg hl]
    by_cases hh : pyLower (pyStrip l) = "help"
    · simp [if_pos hh, ih']
    · by_cases he : pyStrip l = ""
      · simp [if_neg hh, if_pos he, ih']
      · simp only [if_neg hh, if_neg he]
        cases hstep : step (pyStrip l) <;> simp [ih']

theorem mainLoopProcessed_sentinel (pre : List String) (s : String) (post : List String)
    (hs : pyLower (pyStrip s) = "exit") :
    mainLoopProcessed (pre ++ s :: post) = mainLoopProcessed pre := by
  induction pre with
  | nil => simp [mainLoopProcessed, hs]
  | cons l pre ih =>
    simp only [List.cons_append, mainLoopProcessed]
    by_cases h1 : pyLower (pyStrip l) = "exit"
    · simp [if_pos h1]
    · by_cases h2 : pyLower (pyStrip l) = "help"
      · simp [if_neg h1, if_pos h2, ih]
      · by_cases h3 : pyStrip l = ""
        · simp [if_neg h1, if_neg h2, if_pos h3, ih]
        · simp [if_neg h1, if_neg h2, if_neg h3, ih]

theorem mainLoopProcessed_no_exit (inputs : List String) (q : String)
    (hq : q ∈ mainLoopProcessed inputs) : pyLower q ≠ "exit" := by
  induction inputs with
  | nil => exact absurd hq (List.not_mem_nil q)
  | cons l rest ih =>
    by_cases h1 : pyLower (pyStrip l) = "exit"
    · rw [mainLoopProcessed, if_pos h1] at hq
      exact absurd hq (List.not_mem_nil q)
    · by_cases h2 : pyLower (pyStrip l) = "help"
      · rw [mainLoopProcessed, if_neg h1, if_pos h2] at hq
        exact ih hq
      · by_cases h3 : pyStrip l = ""
        · rw [mainLoopProcessed, if_neg h1, if_neg h2, if_pos h3] at hq
          exact ih hq
        · rw [mainLoopProcessed, if_neg h1, if_neg h2, if_neg h3] at hq
          rcases List.mem_cons.mp hq with he | hm
          · subst he
            exact h1
          · exact ih hm

/-- C7: each input loop terminates exactly at its sentinel (`"done"` in the
two hand-rolled variants, `"exit"` in the third), the sentinel line is
never collected or processed, and every non-sentinel line entered before
the sentinel is collected. -/
theorem sentinel_termination :
    (∀ pre (s : String) post, pyLower s = "done" →
      (∀ l ∈ pre, pyLower l ≠ "done") → collectTasks (pre ++ s :: post) = some pre) ∧
    (∀ inputs, (∀ l ∈ inputs, pyLower l ≠ "done") → collectTasks inputs = none) ∧
    (∀ step pre (s : String) post, pyLower (pyStrip s) = "exit" →
      (∀ l ∈ pre, pyLower (pyStrip l) ≠ "exit") →
      mainLoop step (pre ++ s :: post) = mainLoop step pre ++ ["Exiting the program."]) ∧
    (∀ pre (s : String) post, pyLower (pyStrip s) = "exit" →
      mainLoopProcessed (pre ++ s :: post) = mainLoopProcessed pre) ∧
    (∀ inputs q, q ∈ mainLoopProcessed inputs → pyLower q ≠ "exit") :=
  ⟨fun pre s post hs hpre => collectTasks_sentinel pre s post hs hpre,
   fun inputs h => collectTasks_no_sentinel inputs h,
   fun step pre s post hs hpre => mainLoop_sentinel step pre s post hs hpre,
   fun pre s post hs => mainLoopProcessed_sentinel pre s post hs,
   fun inputs q hq => mainLoopProcessed_no_exit inputs q hq⟩

theorem sentinel_termination_witness :
    collectTasks ["a", "done"] = some ["a"] ∧
    mainLoop (fun q => Except.ok q) ["q", "exit"] =
      mainLoop (fun q => Except.ok q) ["q"] ++ ["Exiting the program."] :=
  ⟨sentinel_termination.1 ["a"] "done" [] (by decide) (by decide),
   sentinel_termination.2.2.1 (fun q => Except.ok q) ["q"] "exit" [] (by decide) (by decide)⟩

/-! ## C8: API failures are contained -/

/-- C8: every exception from an external call in variant 3 is converted
into a fallback string or a logged line and the loop continues; the
program stops before the loop only on a configuration or
API-initialization error, which becomes the logged startup outcome. -/
theorem api_failures_contained :
    (∀ e, search_google (Except.error e) = []) ∧
    (∀ e, search_wikipedia (WikiCall.otherError e) =
      Except.ok "Error fetching Wikipedia data.") ∧
    (search_wikipedia WikiCall.pageError = Except.ok "No relevant Wikipedia page found.") ∧
    (∀ e, ask_chatgpt (Except.error e) = "Error generating response from ChatGPT.") ∧
    (∀ step (line : String) rest e, pyLower (pyStrip line) ≠ "exit" →
      pyLower (pyStrip line) ≠ "help" → pyStrip line ≠ "" →
      step (pyStrip line) = Except.error e →
      mainLoop step (line :: rest) = ("An error occurred: " ++ e) :: mainLoop step rest) ∧
    (∀ fs parse initApis m, load_config fs parse = Except.error m →
      entryPoint fs parse initApis = Startup.configFailed m) ∧
    (∀ fs parse initApis ks m, load_config fs parse = Except.ok ks →
      initApis ks = Except.error m →
      entryPoint fs parse initApis = Startup.apiFailed m) := by
  refine ⟨fun e => rfl, fun e => rfl, rfl, fun e => rfl, ?_, ?_, ?_⟩
  · intro step line rest e h1 h2 h3 hstep
    simp only [mainLoop, if_neg h1, if_neg h2, if_neg h3, hstep]
  · intro fs parse initApis m hm
    simp [entryPoint, hm]
  · intro fs parse initApis ks m hok hbad
    simp [entryPoint, hok, hbad]

theorem api_failures_contained_witness :
    mainLoop (fun _ => Except.error "boom") ["q"] = ["An error occurred: boom"] := by
  have h := api_failures_contained.2.2.2.2.1 (fun _ => Except.error "boom") "q" [] "boom"
    (by decide) (by decide) (by decide) rfl
  exact h

end CrewAIRepo
